import Mathlib

/-!
Verification development for the CRT client application.

This file gives a shallow embedding, in Lean, of the four behaviours the
repository implements in TypeScript/JavaScript:

* the Facebook OAuth token-exchange serverless handler,
* the scheduled session-cleanup serverless handler,
* the session retry / token refresh helpers of src/lib/supabase.ts,
* the getCurrentUser helper of src/lib/auth.ts.

External effects (HTTP calls to the Facebook graph API, calls to the
managed database client, exceptions thrown by awaited promises, the wall
clock) are modelled as explicit oracle inputs: every awaited call is a
value of an Except or outcome type supplied to the embedded function, and
the functions additionally return a trace of the network calls they
performed, so that properties such as "no call to the token endpoint
occurs" are statable. JavaScript truthiness of optional strings (undefined
and the empty string are falsy) is modelled explicitly.
-/

set_option autoImplicit false

namespace CRT

/-! ### JavaScript string truthiness -/

/-- Truthiness of an optional JavaScript string: undefined/null and the
empty string are falsy, every other string is truthy. -/
def jsTruthy : Option String → Bool
  | none => false
  | some s => !s.isEmpty

/-- JavaScript a || b on an optional string with a string fallback:
returns the string when it is present and truthy, the fallback
otherwise. -/
def jsOr (a : Option String) (dflt : String) : String :=
  match a with
  | none => dflt
  | some s => if s.isEmpty then dflt else s

/-! ### Data model of the Facebook token-exchange handler
(netlify functions, exchange-facebook-token) -/

/-- A Facebook page record as selected by the handler
(fields id,name,access_token,category,tasks). -/
structure Page where
  id : String
  name : String
  access_token : Option String
  category : String
  tasks : List String
deriving DecidableEq, Repr

/-- The error object of a Facebook graph API error response
(error.response.data.error). -/
structure FBApiError where
  message : String
deriving DecidableEq, Repr

/-- An error thrown by an axios request: the optional structured API
error carried on the response, and the plain message. -/
structure AxiosError where
  respDataError : Option FBApiError
  message : String
deriving DecidableEq, Repr

/-- The errorDetails field of the degraded response body:
pagesError.response?.data?.error || pagesError.message. An object is
always truthy, so the structured error wins whenever present. -/
inductive ErrDetails where
  | apiError (e : FBApiError)
  | plain (s : String)
deriving DecidableEq, Repr

/-- Compute the errorDetails field from a thrown axios error. -/
def errDetailsOf (e : AxiosError) : ErrDetails :=
  match e.respDataError with
  | some fe => ErrDetails.apiError fe
  | none => ErrDetails.plain e.message

/-- The message of the 500 response of the outer catch:
error.response?.data?.error?.message || error.message ||
a literal server-error fallback, with JavaScript falsiness of the empty
string. -/
def catchErrMsg (e : AxiosError) : String :=
  jsOr (e.respDataError.map FBApiError.message)
    (jsOr (some e.message) "Server error during token exchange")

/-- The data object of a successful token-endpoint response. -/
structure TokenData where
  access_token : Option String
  expires_in : Nat
deriving DecidableEq, Repr

/-- The request event as seen by the handler: the HTTP method and the
optional code query parameter (event.queryStringParameters?.code). -/
structure ExchangeEvent where
  httpMethod : String
  queryCode : Option String
deriving DecidableEq, Repr

/-- The environment configuration the handler reads:
VITE_META_APP_ID and META_APP_SECRET. -/
structure ExchangeEnv where
  appId : Option String
  appSecret : Option String
deriving DecidableEq, Repr

/-- Oracle for the external world of one handler invocation: the outcome
of each awaited axios call the handler may perform, in program order. -/
structure ExchangeWorld where
  tokenResult : Except AxiosError TokenData
  pagesResult : Except AxiosError (Option (List Page))
  userDiagResult : Except AxiosError Unit
  permDiagResult : Except AxiosError Unit

/-- The JSON body of a handler response, one constructor per distinct
shape the source builds. The degraded constructor is the only one
carrying a pagesError field. -/
inductive ExchangeBody where
  | empty
  | errorBody (error : String)
  | successBody (accessToken : String) (expiresIn : Nat) (pages : List Page)
  | degradedBody (accessToken : String) (expiresIn : Nat) (pages : List Page)
      (pagesError : String) (errorDetails : ErrDetails)
deriving DecidableEq, Repr

/-- Whether a response body carries the pagesError diagnostic field. -/
def ExchangeBody.hasPagesError : ExchangeBody → Bool
  | ExchangeBody.degradedBody _ _ _ _ _ => true
  | _ => false

/-- The network endpoints the handler can call. -/
inductive NetCall where
  | tokenEndpoint
  | pagesEndpoint
  | userEndpoint
  | permissionsEndpoint
deriving DecidableEq, Repr

/-- A handler response together with the trace of network calls made
while producing it. -/
structure ExchangeResult where
  statusCode : Nat
  body : ExchangeBody
  calls : List NetCall

/-- Shallow embedding of the exchange-facebook-token handler
(exports.handler). Follows the source line by line: the OPTIONS
preflight returns 204 before anything else; a falsy code returns 400;
missing app id or secret returns 500; then the token endpoint is called,
a response without a truthy access token returns 400; the pages fetch
follows, its failure degrading to a 200 body with empty pages and the
pagesError diagnostic; when the pages fetch succeeds with zero pages,
two best-effort diagnostic calls are made whose outcomes only feed
logging. -/
def exchangeHandler (event : ExchangeEvent) (env : ExchangeEnv)
    (w : ExchangeWorld) : ExchangeResult :=
  if event.httpMethod = "OPTIONS" then
    ⟨204, ExchangeBody.empty, []⟩
  else if !jsTruthy event.queryCode then
    ⟨400, ExchangeBody.errorBody "Missing code parameter", []⟩
  else if !jsTruthy env.appId || !jsTruthy env.appSecret then
    ⟨500, ExchangeBody.errorBody "Server configuration error", []⟩
  else
    match w.tokenResult with
    | Except.error e => ⟨500, ExchangeBody.errorBody (catchErrMsg e), [NetCall.tokenEndpoint]⟩
    | Except.ok data =>
      if !jsTruthy data.access_token then
        ⟨400, ExchangeBody.errorBody "Failed to retrieve access token", [NetCall.tokenEndpoint]⟩
      else
        let tok := data.access_token.getD ""
        match w.pagesResult with
        | Except.error pe =>
          ⟨200,
            ExchangeBody.degradedBody tok data.expires_in []
              "Failed to fetch pages" (errDetailsOf pe),
            [NetCall.tokenEndpoint, NetCall.pagesEndpoint]⟩
        | Except.ok pagesOpt =>
          let pages := pagesOpt.getD []
          let diagCalls :=
            if pages.length = 0 then
              [NetCall.userEndpoint, NetCall.permissionsEndpoint]
            else []
          ⟨200, ExchangeBody.successBody tok data.expires_in pages,
            [NetCall.tokenEndpoint, NetCall.pagesEndpoint] ++ diagCalls⟩

/-! ### Data model of the session-cleanup handler
(netlify functions, cleanup-sessions) -/

/-- A row of the user_sessions table, with the fields the cleanup job
touches: an identifier and the expires_at timestamp (modelled as an
integer; ISO-8601 strings compare consistently with the instants they
denote). -/
structure SessionRow where
  id : Nat
  expires_at : Int
deriving DecidableEq, Repr

/-- The delete call of cleanupExpiredSessions:
delete().lt(expires_at, now).select() against a store holding the given
rows. Returns the deleted rows (the select gives them back) and the rows
remaining in the store. -/
def deleteExpired (store : List SessionRow) (now : Int) :
    List SessionRow × List SessionRow :=
  (store.filter (fun r => decide (r.expires_at < now)),
   store.filter (fun r => !decide (r.expires_at < now)))

/-- Shallow embedding of cleanupExpiredSessions. The supabase handle may
be missing (configured = false, the null client of the module top
level); the database call itself may fail (dbResult). On success the
function returns the count of deleted rows and the store is left holding
the remaining rows. A thrown error is an Except.error value. -/
def cleanupExpiredSessions (configured : Bool)
    (dbResult : Except String Unit) (store : List SessionRow) (now : Int) :
    Except String (Nat × List SessionRow) :=
  if !configured then
    Except.error "Database connection not available"
  else
    match dbResult with
    | Except.error e => Except.error e
    | Except.ok _ =>
      let (deleted, kept) := deleteExpired store now
      Except.ok (deleted.length, kept)

/-- The JSON body of a cleanup-handler response. -/
inductive CleanupBody where
  | empty
  | success (message : String)
  | failure (message : String) (error : String)
deriving DecidableEq, Repr

/-- A cleanup-handler response paired with the store contents after the
invocation. -/
structure CleanupResult where
  statusCode : Nat
  body : CleanupBody
  store : List SessionRow
deriving DecidableEq, Repr

/-- The success message of the cleanup handler for a given count. -/
def cleanupMessage (n : Nat) : String :=
  "Cleaned up " ++ toString n ++ " expired sessions"

/-- Shallow embedding of the cleanup-sessions handler (exports.handler).
An OPTIONS preflight returns 204; otherwise cleanupExpiredSessions runs
against the store at the single cutoff now computed at invocation start,
and its result is rendered as a 200 success body or a 500 error body. -/
def cleanupHandler (httpMethod : String) (configured : Bool)
    (dbResult : Except String Unit) (store : List SessionRow) (now : Int) :
    CleanupResult :=
  if httpMethod = "OPTIONS" then
    ⟨204, CleanupBody.empty, store⟩
  else
    match cleanupExpiredSessions configured dbResult store now with
    | Except.ok (n, kept) =>
      ⟨200, CleanupBody.success (cleanupMessage n), kept⟩
    | Except.error e =>
      ⟨500, CleanupBody.failure "Error cleaning up sessions" e, store⟩

/-! ### Session retry (src/lib/supabase.ts, getSessionWithRetry)

One attempt is one awaited call of getSessionWithTimeout 5000: it either
resolves with a result whose data.session is non-null (success), resolves
without a session (noSession), or rejects (failure, carrying the error
message). The wall clock is explicit: an oracle gives the outcome and the
duration in milliseconds of each attempt, and the loop state carries the
current time. The while loop is driven by fuel; since every iteration
advances the clock by at least the inter-attempt delay, any fuel of at
least maxTimeMs reaches the real exit once initialDelayMs is positive,
and running out of fuel is rendered as the same throw the loop exit
performs. -/

/-- Outcome of one getSessionWithTimeout attempt. -/
inductive AttemptResult where
  | success
  | noSession
  | failure (msg : String)
deriving DecidableEq, Repr

/-- Final outcome of getSessionWithRetry: the session-bearing result
found at some attempt, or a thrown error message. -/
inductive RetryOutcome where
  | found (attempt : Nat)
  | threw (msg : String)
deriving DecidableEq, Repr

/-- A complete run of the retry loop: the per-attempt trace of
(attempt number, outcome, delay slept after the attempt), the wall-clock
time at which the function returned or threw, and the outcome. A success
attempt sleeps no delay; its trace entry records 0. -/
structure RetryRun where
  trace : List (Nat × AttemptResult × Nat)
  endTime : Nat
  outcome : RetryOutcome
deriving DecidableEq, Repr

/-- The generic timeout error message of the final throw. -/
def retryTimeoutMsg (maxTimeMs : Nat) : String :=
  "Session check failed after " ++ toString maxTimeMs ++ "ms"

/-- One step of the while loop of getSessionWithRetry, in state
(now, attempt, lastError). The loop guard is now - startTime < maxTimeMs
re-read each iteration; a no-session attempt sleeps
min (initialDelayMs * attempt) 2000, a failed attempt records the error
and sleeps initialDelayMs; when the guard fails the function throws the
last recorded error or the generic timeout message. -/
def retryGo (att : Nat → AttemptResult) (dur : Nat → Nat)
    (maxTimeMs initialDelayMs startTime : Nat) :
    Nat → Nat → Nat → Option String → RetryRun
  | 0, now, _, lastErr =>
    ⟨[], now, RetryOutcome.threw (lastErr.getD (retryTimeoutMsg maxTimeMs))⟩
  | fuel + 1, now, a, lastErr =>
    if now - startTime < maxTimeMs then
      match att a with
      | AttemptResult.success =>
        ⟨[(a, AttemptResult.success, 0)], now + dur a, RetryOutcome.found a⟩
      | AttemptResult.noSession =>
        let delay := min (initialDelayMs * a) 2000
        let rest := retryGo att dur maxTimeMs initialDelayMs startTime
          fuel (now + dur a + delay) (a + 1) lastErr
        ⟨(a, AttemptResult.noSession, delay) :: rest.trace,
          rest.endTime, rest.outcome⟩
      | AttemptResult.failure m =>
        let delay := initialDelayMs
        let rest := retryGo att dur maxTimeMs initialDelayMs startTime
          fuel (now + dur a + delay) (a + 1) (some m)
        ⟨(a, AttemptResult.failure m, delay) :: rest.trace,
          rest.endTime, rest.outcome⟩
    else
      ⟨[], now, RetryOutcome.threw (lastErr.getD (retryTimeoutMsg maxTimeMs))⟩

/-- Shallow embedding of getSessionWithRetry maxTimeMs initialDelayMs:
the loop starts at attempt 1 with no recorded error, at the start
time. -/
def getSessionWithRetry (att : Nat → AttemptResult) (dur : Nat → Nat)
    (maxTimeMs initialDelayMs startTime fuel : Nat) : RetryRun :=
  retryGo att dur maxTimeMs initialDelayMs startTime fuel startTime 1 none

/-- The message of the last failure entry of a trace, if any: the value
held by the lastError variable when the loop exits. -/
def lastFailureMsg : List (Nat × AttemptResult × Nat) → Option String
  | [] => none
  | (_, r, _) :: rest =>
    match lastFailureMsg rest with
    | some m => some m
    | none =>
      match r with
      | AttemptResult.failure m => some m
      | _ => none

/-! ### Token refresh (src/lib/supabase.ts, refreshSupabaseToken) -/

/-- Outcome of an awaited supabase.auth.refreshSession() call: the call
may throw, return an error value, return no session, or return a session
carrying its new expiry. -/
inductive RefreshOutcome where
  | threw (msg : String)
  | errorResult (msg : String)
  | noSession
  | session (expires_at : Nat)
deriving DecidableEq, Repr

/-- The result of the embedded refreshSupabaseToken: the boolean the
function returns, whether refreshSession was invoked at all, and the
cached session state afterwards (the cache is mutated only by the store
client during a refreshSession call, whose effect is supplied as the
oracle newCache). -/
structure RefreshResult (Cache : Type) where
  returned : Bool
  calledRefresh : Bool
  cache : Cache
deriving Repr

/-- The body of refreshSupabaseToken before its outer catch: the offline
guard (navigator defined and navigator.onLine false) returns false
without any call; otherwise refreshSession runs and an error value, a
missing session, and a session map to false, false and true, while a
thrown call propagates as Except.error to the catch. -/
def refreshSupabaseTokenBody {Cache : Type}
    (navDefined onLine : Bool) (r : RefreshOutcome)
    (cache : Cache) (newCache : Cache) :
    Except String (RefreshResult Cache) :=
  if navDefined && !onLine then
    Except.ok ⟨false, false, cache⟩
  else
    match r with
    | RefreshOutcome.threw m => Except.error m
    | RefreshOutcome.errorResult _ => Except.ok ⟨false, true, newCache⟩
    | RefreshOutcome.noSession => Except.ok ⟨false, true, newCache⟩
    | RefreshOutcome.session _ => Except.ok ⟨true, true, newCache⟩

/-- Shallow embedding of refreshSupabaseToken: the body wrapped in the
outer catch, which converts any thrown error into the return value
false. When the body throws, refreshSession was invoked. -/
def refreshSupabaseToken {Cache : Type}
    (navDefined onLine : Bool) (r : RefreshOutcome)
    (cache : Cache) (newCache : Cache) : RefreshResult Cache :=
  match refreshSupabaseTokenBody navDefined onLine r cache newCache with
  | Except.ok res => res
  | Except.error _ => ⟨false, true, newCache⟩

/-- Shallow embedding of refreshAuthToken (src/lib/auth.ts): it awaits
refreshSupabaseToken inside a try/catch that returns false on a thrown
error; since the embedded refreshSupabaseToken is total, the wrapper
returns its boolean unchanged. -/
def refreshAuthToken {Cache : Type}
    (navDefined onLine : Bool) (r : RefreshOutcome)
    (cache : Cache) (newCache : Cache) : Bool :=
  (refreshSupabaseToken navDefined onLine r cache newCache).returned

/-! ### getCurrentUser (src/lib/auth.ts) -/

/-- The user object of an auth session, with the claims getCurrentUser
reads: id, optional email, optional role from user_metadata, optional
created_at. -/
structure SessionUser where
  id : String
  email : Option String
  metaRole : Option String
  created_at : Option String
deriving DecidableEq, Repr

/-- A row of the public users table, with the fields that flow into the
returned record. -/
structure UserRow where
  id : String
  email : String
  role : String
  created_at : String
deriving DecidableEq, Repr

/-- The User record getCurrentUser returns. -/
structure User where
  id : String
  email : String
  role : String
  created_at : String
  isAuthenticated : Bool
deriving DecidableEq, Repr

/-- Outcome of the awaited supabase.auth.getSession() call: it may throw
(caught by the outer catch), or resolve with the session user (none when
the session is null or has no user) and an optional error value. -/
def SessionLookup : Type := Except String (Option SessionUser × Option String)

/-- Outcome of the awaited users-table enrichment read
(.from(users).select(*).eq(id).single()): it may throw (caught by the
inner catch), or resolve with an optional row and an optional error
value. -/
def EnrichLookup : Type := Except String (Option UserRow × Option String)

/-- The minimal session-derived user record getCurrentUser builds before
the enrichment read: defaults are the empty email, the customer role and
the current ISO time for a missing created_at. -/
def minimalUserOf (u : SessionUser) (nowIso : String) : User :=
  { id := u.id
    email := u.email.getD ""
    role := u.metaRole.getD "customer"
    created_at := u.created_at.getD nowIso
    isAuthenticated := true }

/-- Shallow embedding of getCurrentUser. A thrown session lookup is
absorbed by the outer catch into null; a session error value or a
missing session user give null; otherwise the enrichment read runs, and
any failure of it (thrown, error value, or no row) falls back to the
minimal session-derived record, while a row is spread into the result
with isAuthenticated true. The fire-and-forget last_sign_in update does
not influence the returned value. -/
def getCurrentUser (sess : SessionLookup) (enrich : EnrichLookup)
    (nowIso : String) : Option User :=
  match sess with
  | Except.error _ => none
  | Except.ok (sessUser, sessErr) =>
    match sessErr with
    | some _ => none
    | none =>
      match sessUser with
      | none => none
      | some u =>
        let minimalUser := minimalUserOf u nowIso
        match enrich with
        | Except.error _ => some minimalUser
        | Except.ok (row, userErr) =>
          match userErr with
          | some _ => some minimalUser
          | none =>
            match row with
            | some r =>
              some { id := r.id, email := r.email, role := r.role,
                     created_at := r.created_at, isAuthenticated := true }
            | none => some minimalUser

/-- Whether the session lookup failed in one of the three ways that make
getCurrentUser return null: a thrown call, an error value, or no session
user. -/
def sessionLookupFails : SessionLookup → Bool
  | Except.error _ => true
  | Except.ok (sessUser, sessErr) => sessErr.isSome || sessUser.isNone

/-- Whether the enrichment read failed to produce a row: a thrown call,
an error value, or a missing row. -/
def enrichLookupFails : EnrichLookup → Bool
  | Except.error _ => true
  | Except.ok (row, userErr) => userErr.isSome || row.isNone

/-! ## Theorems -/

/-- C1: for every token exchange in which the token endpoint returns a
truthy access token but the pages fetch throws, the handler still
returns status 200, with accessToken and expiresIn taken from the token
response, pages equal to the empty list, and the pagesError diagnostic
field present: the failure of the secondary step never discards the
token obtained in the primary step. The hypotheses are exactly the path
condition: a non-preflight request carrying a truthy code, both
credentials configured, a token response with a truthy access token, and
a pages fetch that throws. -/
theorem exchange_token_kept_on_pages_failure
    (event : ExchangeEvent) (env : ExchangeEnv) (w : ExchangeWorld)
    (td : TokenData) (pe : AxiosError)
    (hm : event.httpMethod ≠ "OPTIONS")
    (hc : jsTruthy event.queryCode = true)
    (hid : jsTruthy env.appId = true)
    (hsec : jsTruthy env.appSecret = true)
    (htok : w.tokenResult = Except.ok td)
    (hat : jsTruthy td.access_token = true)
    (hp : w.pagesResult = Except.error pe) :
    (exchangeHandler event env w).statusCode = 200 ∧
    (exchangeHandler event env w).body =
      ExchangeBody.degradedBody (td.access_token.getD "") td.expires_in []
        "Failed to fetch pages" (errDetailsOf pe) ∧
    (exchangeHandler event env w).body.hasPagesError = true := by
  simp [exchangeHandler, hm, hc, hid, hsec, htok, hat, hp,
    ExchangeBody.hasPagesError]

/-- Witness for C1: a concrete exchange where the token endpoint
returns token T1 with expiry 3600 and the pages fetch throws a network
error; the response is the degraded 200 body with the token, empty
pages and the pagesError field. -/
theorem exchange_token_kept_on_pages_failure_witness :
    (exchangeHandler ⟨"GET", some "abc123"⟩ ⟨some "id1", some "sec1"⟩
      ⟨Except.ok ⟨some "T1", 3600⟩,
       Except.error ⟨none, "network down"⟩,
       Except.ok (), Except.ok ()⟩).statusCode = 200 ∧
    (exchangeHandler ⟨"GET", some "abc123"⟩ ⟨some "id1", some "sec1"⟩
      ⟨Except.ok ⟨some "T1", 3600⟩,
       Except.error ⟨none, "network down"⟩,
       Except.ok (), Except.ok ()⟩).body =
      ExchangeBody.degradedBody "T1" 3600 []
        "Failed to fetch pages" (ErrDetails.plain "network down") ∧
    (exchangeHandler ⟨"GET", some "abc123"⟩ ⟨some "id1", some "sec1"⟩
      ⟨Except.ok ⟨some "T1", 3600⟩,
       Except.error ⟨none, "network down"⟩,
       Except.ok (), Except.ok ()⟩).body.hasPagesError = true := by
  have h := exchange_token_kept_on_pages_failure
    ⟨"GET", some "abc123"⟩ ⟨some "id1", some "sec1"⟩
    ⟨Except.ok ⟨some "T1", 3600⟩,
     Except.error ⟨none, "network down"⟩,
     Except.ok (), Except.ok ()⟩
    ⟨some "T1", 3600⟩ ⟨none, "network down"⟩
    (by decide) rfl rfl rfl rfl rfl rfl
  exact ⟨h.1, h.2.1, h.2.2⟩

/-- C2: for every non-preflight request whose query string lacks the
code parameter, the handler returns 400 with the JSON error body, and
performs no network call at all, in particular none to the token
endpoint. (A CORS preflight OPTIONS request is answered 204 before any
parameter handling, as the spec describes separately.) -/
theorem exchange_missing_code_rejected
    (event : ExchangeEvent) (env : ExchangeEnv) (w : ExchangeWorld)
    (hm : event.httpMethod ≠ "OPTIONS")
    (hc : event.queryCode = none) :
    (exchangeHandler event env w).statusCode = 400 ∧
    (exchangeHandler event env w).body =
      ExchangeBody.errorBody "Missing code parameter" ∧
    NetCall.tokenEndpoint ∉ (exchangeHandler event env w).calls := by
  simp [exchangeHandler, hm, hc, jsTruthy]

/-- Witness for C2: a concrete GET request with no code parameter is
answered 400 with the missing-parameter body and an empty call trace. -/
theorem exchange_missing_code_rejected_witness :
    (exchangeHandler ⟨"GET", none⟩ ⟨some "id1", some "sec1"⟩
      ⟨Except.ok ⟨some "T1", 3600⟩, Except.ok (some []),
       Except.ok (), Except.ok ()⟩).statusCode = 400 ∧
    (exchangeHandler ⟨"GET", none⟩ ⟨some "id1", some "sec1"⟩
      ⟨Except.ok ⟨some "T1", 3600⟩, Except.ok (some []),
       Except.ok (), Except.ok ()⟩).body =
      ExchangeBody.errorBody "Missing code parameter" ∧
    NetCall.tokenEndpoint ∉
      (exchangeHandler ⟨"GET", none⟩ ⟨some "id1", some "sec1"⟩
        ⟨Except.ok ⟨some "T1", 3600⟩, Except.ok (some []),
         Except.ok (), Except.ok ()⟩).calls :=
  exchange_missing_code_rejected ⟨"GET", none⟩ ⟨some "id1", some "sec1"⟩
    ⟨Except.ok ⟨some "T1", 3600⟩, Except.ok (some []),
     Except.ok (), Except.ok ()⟩ (by decide) rfl

/-- C8: when the pages fetch succeeds, including with zero pages, the
200 response body is the success shape carrying the pages array and no
pagesError field; and the diagnostic calls (user details, token
permissions) are best-effort: the whole handler result, for every
request, is invariant under every choice of their outcomes, so their
failures never alter the response sent to the caller. -/
theorem exchange_pages_success_shape
    (event : ExchangeEvent) (env : ExchangeEnv) (w : ExchangeWorld)
    (td : TokenData) (pagesOpt : Option (List Page))
    (hm : event.httpMethod ≠ "OPTIONS")
    (hc : jsTruthy event.queryCode = true)
    (hid : jsTruthy env.appId = true)
    (hsec : jsTruthy env.appSecret = true)
    (htok : w.tokenResult = Except.ok td)
    (hat : jsTruthy td.access_token = true)
    (hp : w.pagesResult = Except.ok pagesOpt) :
    (exchangeHandler event env w).statusCode = 200 ∧
    (exchangeHandler event env w).body =
      ExchangeBody.successBody (td.access_token.getD "") td.expires_in
        (pagesOpt.getD []) ∧
    (exchangeHandler event env w).body.hasPagesError = false ∧
    (∀ (event' : ExchangeEvent) (env' : ExchangeEnv) (w' : ExchangeWorld)
       (d1 d2 : Except AxiosError Unit),
      exchangeHandler event' env'
        ⟨w'.tokenResult, w'.pagesResult, d1, d2⟩ =
        exchangeHandler event' env' w') := by
  refine ⟨?_, ?_, ?_, ?_⟩
  · simp [exchangeHandler, hm, hc, hid, hsec, htok, hat, hp]
  · simp [exchangeHandler, hm, hc, hid, hsec, htok, hat, hp]
  · simp [exchangeHandler, hm, hc, hid, hsec, htok, hat, hp,
      ExchangeBody.hasPagesError]
  · intro event' env' w' d1 d2
    cases w'
    rfl

/-- Witness for C8: a concrete exchange whose pages fetch succeeds with
zero pages yields the success body with empty pages and no pagesError,
even though both diagnostic calls fail. -/
theorem exchange_pages_success_shape_witness :
    (exchangeHandler ⟨"GET", some "abc123"⟩ ⟨some "id1", some "sec1"⟩
      ⟨Except.ok ⟨some "T1", 3600⟩, Except.ok (some []),
       Except.error ⟨none, "diag user failed"⟩,
       Except.error ⟨none, "diag perm failed"⟩⟩).statusCode = 200 ∧
    (exchangeHandler ⟨"GET", some "abc123"⟩ ⟨some "id1", some "sec1"⟩
      ⟨Except.ok ⟨some "T1", 3600⟩, Except.ok (some []),
       Except.error ⟨none, "diag user failed"⟩,
       Except.error ⟨none, "diag perm failed"⟩⟩).body =
      ExchangeBody.successBody "T1" 3600 [] ∧
    (exchangeHandler ⟨"GET", some "abc123"⟩ ⟨some "id1", some "sec1"⟩
      ⟨Except.ok ⟨some "T1", 3600⟩, Except.ok (some []),
       Except.error ⟨none, "diag user failed"⟩,
       Except.error ⟨none, "diag perm failed"⟩⟩).body.hasPagesError
      = false := by
  have h := exchange_pages_success_shape
    ⟨"GET", some "abc123"⟩ ⟨some "id1", some "sec1"⟩
    ⟨Except.ok ⟨some "T1", 3600⟩, Except.ok (some []),
     Except.error ⟨none, "diag user failed"⟩,
     Except.error ⟨none, "diag perm failed"⟩⟩
    ⟨some "T1", 3600⟩ (some [])
    (by decide) rfl rfl rfl rfl rfl rfl
  exact ⟨h.1, h.2.1, h.2.2.1⟩

/-- C9: the client-input check precedes the configuration check. For
every non-preflight request lacking the code parameter the response is
the 400 missing-code error whatever the environment holds, so a missing
code takes precedence over missing credentials; and the 500 server
configuration error body is only ever produced for a request that does
carry a (truthy) code. -/
theorem exchange_client_error_precedence
    (event : ExchangeEvent) (env : ExchangeEnv) (w : ExchangeWorld)
    (hm : event.httpMethod ≠ "OPTIONS") :
    (event.queryCode = none →
      (exchangeHandler event env w).statusCode = 400 ∧
      (exchangeHandler event env w).body =
        ExchangeBody.errorBody "Missing code parameter") ∧
    ((exchangeHandler event env w).body =
        ExchangeBody.errorBody "Server configuration error" →
      jsTruthy event.queryCode = true) ∧
    ((exchangeHandler event env w).statusCode = 500 →
      jsTruthy event.queryCode = true) := by
  refine ⟨?_, ?_, ?_⟩
  · intro hc
    constructor
    · simp [exchangeHandler, hm, hc, jsTruthy]
    · simp [exchangeHandler, hm, hc, jsTruthy]
  · intro hbody
    by_cases hc : jsTruthy event.queryCode = true
    · exact hc
    · exfalso
      have hc' : jsTruthy event.queryCode = false := by
        simpa using hc
      have : (exchangeHandler event env w).body =
          ExchangeBody.errorBody "Missing code parameter" := by
        simp [exchangeHandler, hm, hc']
      rw [this] at hbody
      simp at hbody
  · intro h500
    by_cases hc : jsTruthy event.queryCode = true
    · exact hc
    · exfalso
      have hc' : jsTruthy event.queryCode = false := by
        simpa using hc
      have : (exchangeHandler event env w).statusCode = 400 := by
        simp [exchangeHandler, hm, hc']
      omega

/-- Witness for C9: a concrete GET request with no code parameter and
with both credentials absent from the environment is still answered 400
with the missing-code body, not the 500 configuration error. -/
theorem exchange_client_error_precedence_witness :
    (exchangeHandler ⟨"GET", none⟩ ⟨none, none⟩
      ⟨Except.ok ⟨some "T1", 3600⟩, Except.ok (some []),
       Except.ok (), Except.ok ()⟩).statusCode = 400 ∧
    (exchangeHandler ⟨"GET", none⟩ ⟨none, none⟩
      ⟨Except.ok ⟨some "T1", 3600⟩, Except.ok (some []),
       Except.ok (), Except.ok ()⟩).body =
      ExchangeBody.errorBody "Missing code parameter" :=
  (exchange_client_error_precedence ⟨"GET", none⟩ ⟨none, none⟩
    ⟨Except.ok ⟨some "T1", 3600⟩, Except.ok (some []),
     Except.ok (), Except.ok ()⟩ (by decide)).1 rfl

/-- C5: the cleanup handler deletes exactly the session rows whose
expires_at is strictly below the single cutoff now computed once per
invocation (the one now argument threaded through the whole call): a
row is deleted iff it was in the store with expires_at < now, a row is
kept iff it was in the store with expires_at not below now, and the 200
success body reports the count of deleted rows. -/
theorem cleanup_deletes_exactly_expired
    (httpMethod : String) (store : List SessionRow) (now : Int)
    (hm : httpMethod ≠ "OPTIONS") :
    (∀ r : SessionRow,
      r ∈ (deleteExpired store now).1 ↔ r ∈ store ∧ r.expires_at < now) ∧
    (∀ r : SessionRow,
      r ∈ (cleanupHandler httpMethod true (Except.ok ()) store now).store ↔
        r ∈ store ∧ ¬ r.expires_at < now) ∧
    (cleanupHandler httpMethod true (Except.ok ()) store now).statusCode
      = 200 ∧
    (cleanupHandler httpMethod true (Except.ok ()) store now).body =
      CleanupBody.success
        (cleanupMessage (deleteExpired store now).1.length) := by
  refine ⟨?_, ?_, ?_, ?_⟩
  · intro r
    simp [deleteExpired, List.mem_filter]
  · intro r
    simp [cleanupHandler, cleanupExpiredSessions, deleteExpired, hm,
      List.mem_filter]
  · simp [cleanupHandler, cleanupExpiredSessions, deleteExpired, hm]
  · simp [cleanupHandler, cleanupExpiredSessions, deleteExpired, hm]

/-- Witness for C5: a store holding one row expired an hour ago and one
row expiring an hour from now (cutoff 0, expiries in milliseconds):
exactly the expired row is deleted, the fresh row is kept, and the 200
body reads Cleaned up 1 expired sessions. -/
theorem cleanup_deletes_exactly_expired_witness :
    ((⟨1, -3600000⟩ : SessionRow) ∈
      (deleteExpired [⟨1, -3600000⟩, ⟨2, 3600000⟩] 0).1 ↔
      (⟨1, -3600000⟩ : SessionRow) ∈
        ([⟨1, -3600000⟩, ⟨2, 3600000⟩] : List SessionRow) ∧
        (-3600000 : Int) < 0) ∧
    ((⟨2, 3600000⟩ : SessionRow) ∈
      (cleanupHandler "POST" true (Except.ok ())
        [⟨1, -3600000⟩, ⟨2, 3600000⟩] 0).store ↔
      (⟨2, 3600000⟩ : SessionRow) ∈
        ([⟨1, -3600000⟩, ⟨2, 3600000⟩] : List SessionRow) ∧
        ¬ (3600000 : Int) < 0) ∧
    (cleanupHandler "POST" true (Except.ok ())
      [⟨1, -3600000⟩, ⟨2, 3600000⟩] 0).statusCode = 200 ∧
    (cleanupHandler "POST" true (Except.ok ())
      [⟨1, -3600000⟩, ⟨2, 3600000⟩] 0).body =
      CleanupBody.success "Cleaned up 1 expired sessions" := by
  have h := cleanup_deletes_exactly_expired "POST"
    [⟨1, -3600000⟩, ⟨2, 3600000⟩] 0 (by decide)
  refine ⟨h.1 ⟨1, -3600000⟩, h.2.1 ⟨2, 3600000⟩, h.2.2.1, ?_⟩
  have hb := h.2.2.2
  rw [hb]
  rfl

/-- Helper: a cleanup invocation over a store none of whose rows expires
below the cutoff deletes nothing: it returns 200, reports 0 cleaned
sessions and leaves the store unchanged. -/
theorem cleanupHandler_no_expired
    (httpMethod : String) (store : List SessionRow) (now : Int)
    (hm : httpMethod ≠ "OPTIONS")
    (hfresh : ∀ r ∈ store, ¬ r.expires_at < now) :
    cleanupHandler httpMethod true (Except.ok ()) store now =
      ⟨200, CleanupBody.success "Cleaned up 0 expired sessions", store⟩ := by
  have hnil : store.filter (fun r => decide (r.expires_at < now)) = [] := by
    rw [List.filter_eq_nil_iff]
    intro r hr
    simpa using hfresh r hr
  have hkeep : store.filter (fun r => !decide (r.expires_at < now))
      = store := by
    apply List.filter_eq_self.mpr
    intro r hr
    simpa using hfresh r hr
  simp only [cleanupHandler, cleanupExpiredSessions, deleteExpired,
    if_neg hm, Bool.not_true, Bool.false_eq_true, if_false, hnil, hkeep]
  rfl

/-- C6: the cleanup handler is idempotent. A first invocation at cutoff
one leaves the store holding only unexpired rows; if no remaining row
expires below the second cutoff in between, a second invocation deletes
zero rows, leaves the store unchanged, and returns 200 with a body
reporting 0 cleaned sessions. -/
theorem cleanup_idempotent
    (httpMethod : String) (store : List SessionRow) (now1 now2 : Int)
    (hm : httpMethod ≠ "OPTIONS")
    (hfresh : ∀ r ∈ (cleanupHandler httpMethod true (Except.ok ())
        store now1).store, ¬ r.expires_at < now2) :
    (cleanupHandler httpMethod true (Except.ok ())
      (cleanupHandler httpMethod true (Except.ok ()) store now1).store
      now2).statusCode = 200 ∧
    (cleanupHandler httpMethod true (Except.ok ())
      (cleanupHandler httpMethod true (Except.ok ()) store now1).store
      now2).body = CleanupBody.success "Cleaned up 0 expired sessions" ∧
    (cleanupHandler httpMethod true (Except.ok ())
      (cleanupHandler httpMethod true (Except.ok ()) store now1).store
      now2).store =
      (cleanupHandler httpMethod true (Except.ok ()) store now1).store := by
  rw [cleanupHandler_no_expired httpMethod _ now2 hm hfresh]
  exact ⟨rfl, rfl, rfl⟩

/-- Witness for C6: after cleaning a store with one expired and one
fresh row at cutoff 0, a second invocation at cutoff 0 reports 0 cleaned
sessions, returns 200 and leaves the store as it was. -/
theorem cleanup_idempotent_witness :
    (cleanupHandler "POST" true (Except.ok ())
      (cleanupHandler "POST" true (Except.ok ())
        [⟨1, -10⟩, ⟨2, 10⟩] 0).store 0).statusCode = 200 ∧
    (cleanupHandler "POST" true (Except.ok ())
      (cleanupHandler "POST" true (Except.ok ())
        [⟨1, -10⟩, ⟨2, 10⟩] 0).store 0).body =
      CleanupBody.success "Cleaned up 0 expired sessions" ∧
    (cleanupHandler "POST" true (Except.ok ())
      (cleanupHandler "POST" true (Except.ok ())
        [⟨1, -10⟩, ⟨2, 10⟩] 0).store 0).store =
      (cleanupHandler "POST" true (Except.ok ())
        [⟨1, -10⟩, ⟨2, 10⟩] 0).store :=
  cleanup_idempotent "POST" [⟨1, -10⟩, ⟨2, 10⟩] 0 0 (by decide)
    (by decide)

/-- C7: refreshSupabaseToken returns the boolean false, rather than
throwing, whenever the client is known to be offline (navigator defined
and onLine false), and in that case refreshSession is never invoked, so
the previously cached session is left unmodified whatever the store
client would have done; and in general the call returns true exactly
when the refresh is attempted and yields a session, so every failure
(offline, thrown call, error value, missing session) becomes the return
value false. The wrapper refreshAuthToken forwards that boolean. -/
theorem refreshToken_offline_false_and_failures_false
    {Cache : Type} (navDefined onLine : Bool) (r : RefreshOutcome)
    (cache newCache : Cache) :
    (navDefined = true → onLine = false →
      refreshSupabaseToken navDefined onLine r cache newCache =
        ⟨false, false, cache⟩) ∧
    ((refreshSupabaseToken navDefined onLine r cache newCache).returned
        = true ↔
      (navDefined && !onLine) = false ∧
        ∃ e, r = RefreshOutcome.session e) ∧
    refreshAuthToken navDefined onLine r cache newCache =
      (refreshSupabaseToken navDefined onLine r cache newCache).returned := by
  refine ⟨?_, ?_, rfl⟩
  · intro hn ho
    subst hn ho
    rfl
  · by_cases hoff : (navDefined && !onLine) = true
    · simp [refreshSupabaseToken, refreshSupabaseTokenBody, hoff]
    · have hoff' : (navDefined && !onLine) = false := by
        simpa using hoff
      cases r <;>
        simp [refreshSupabaseToken, refreshSupabaseTokenBody, hoff']

/-- Witness for C7: offline with a cached session and a refresh call
that would have thrown: the function returns false, makes no refresh
call, and the cache keeps its previous value. -/
theorem refreshToken_offline_witness :
    refreshSupabaseToken true false (RefreshOutcome.threw "network down")
      (some 5 : Option Nat) none =
      ⟨false, false, some 5⟩ ∧
    ¬ (refreshSupabaseToken true false
        (RefreshOutcome.threw "network down")
        (some 5 : Option Nat) none).returned = true :=
  have h := refreshToken_offline_false_and_failures_false true false
    (RefreshOutcome.threw "network down") (some 5 : Option Nat) none
  ⟨h.1 rfl rfl, fun hc => by
    rcases (h.2.1).mp hc with ⟨hguard, _⟩
    simp at hguard⟩

/-- C10: getCurrentUser is total at its public interface: the embedding
returns a value for every outcome of the session lookup and the
enrichment read (every thrown call is absorbed by a catch). It returns
null exactly when the session lookup fails (thrown, error value, or no
session user); any returned record has isAuthenticated true; and when
the session lookup succeeds but the enrichment read does not produce a
row, the result is exactly the minimal session-derived record. -/
theorem getCurrentUser_total_characterization
    (sess : SessionLookup) (enrich : EnrichLookup) (nowIso : String) :
    (getCurrentUser sess enrich nowIso = none ↔
      sessionLookupFails sess = true) ∧
    (∀ u, getCurrentUser sess enrich nowIso = some u →
      u.isAuthenticated = true) ∧
    (∀ su, sess = Except.ok (some su, none) →
      enrichLookupFails enrich = true →
      getCurrentUser sess enrich nowIso = some (minimalUserOf su nowIso)) := by
  refine ⟨?_, ?_, ?_⟩
  · rcases sess with m | ⟨su, err⟩
    · simp [getCurrentUser, sessionLookupFails]
    · rcases err with _ | e
      · rcases su with _ | u
        · simp [getCurrentUser, sessionLookupFails]
        · rcases enrich with m | ⟨row, uerr⟩
          · simp [getCurrentUser, sessionLookupFails]
          · rcases uerr with _ | e'
            · rcases row with _ | rr <;>
                simp [getCurrentUser, sessionLookupFails]
            · simp [getCurrentUser, sessionLookupFails]
      · simp [getCurrentUser, sessionLookupFails]
  · intro u hu
    rcases sess with m | ⟨su, err⟩
    · simp [getCurrentUser] at hu
    · rcases err with _ | e
      · rcases su with _ | v
        · simp [getCurrentUser] at hu
        · rcases enrich with m | ⟨row, uerr⟩
          · simp [getCurrentUser] at hu
            subst hu
            rfl
          · rcases uerr with _ | e'
            · rcases row with _ | rr
              · simp [getCurrentUser] at hu
                subst hu
                rfl
              · simp [getCurrentUser] at hu
                subst hu
                rfl
            · simp [getCurrentUser] at hu
              subst hu
              rfl
      · simp [getCurrentUser] at hu
  · intro su hsess hfail
    subst hsess
    rcases enrich with m | ⟨row, uerr⟩
    · simp [getCurrentUser]
    · rcases uerr with _ | e'
      · rcases row with _ | rr
        · simp [getCurrentUser]
        · simp [enrichLookupFails] at hfail
      · simp [getCurrentUser]

/-- Witness for C10: a concrete session user whose enrichment read
throws yields exactly the minimal session-derived record, authenticated,
with the default customer role and the empty-email default. -/
theorem getCurrentUser_total_characterization_witness :
    getCurrentUser
      (Except.ok (some ⟨"u1", some "a@b.c", none, none⟩, none))
      (Except.error "users table unreachable") "2026-10-11T00:00:00Z" =
      some ⟨"u1", "a@b.c", "customer", "2026-10-11T00:00:00Z", true⟩ := by
  have h := getCurrentUser_total_characterization
    (Except.ok (some ⟨"u1", some "a@b.c", none, none⟩, none))
    (Except.error "users table unreachable") "2026-10-11T00:00:00Z"
  have h2 := h.2.2 ⟨"u1", some "a@b.c", none, none⟩ rfl rfl
  rw [h2]
  rfl

/-! ### Unfolding lemmas for the retry loop -/

/-- Out of fuel: the loop throws the recorded error or the generic
timeout message. -/
theorem retryGo_zero (att : Nat → AttemptResult) (dur : Nat → Nat)
    (maxTimeMs initialDelayMs startTime now a : Nat) (le : Option String) :
    retryGo att dur maxTimeMs initialDelayMs startTime 0 now a le =
      ⟨[], now, RetryOutcome.threw (le.getD (retryTimeoutMsg maxTimeMs))⟩ :=
  rfl

/-- Budget exhausted: the loop guard fails and the loop throws. -/
theorem retryGo_guard_false (att : Nat → AttemptResult) (dur : Nat → Nat)
    (maxTimeMs initialDelayMs startTime fuel now a : Nat)
    (le : Option String) (hg : ¬ now - startTime < maxTimeMs) :
    retryGo att dur maxTimeMs initialDelayMs startTime (fuel + 1) now a le =
      ⟨[], now, RetryOutcome.threw (le.getD (retryTimeoutMsg maxTimeMs))⟩ := by
  simp [retryGo, hg]

/-- A successful attempt returns at once, the attempt duration elapsed
and no delay slept. -/
theorem retryGo_success (att : Nat → AttemptResult) (dur : Nat → Nat)
    (maxTimeMs initialDelayMs startTime fuel now a : Nat)
    (le : Option String) (hg : now - startTime < maxTimeMs)
    (hatt : att a = AttemptResult.success) :
    retryGo att dur maxTimeMs initialDelayMs startTime (fuel + 1) now a le =
      ⟨[(a, AttemptResult.success, 0)], now + dur a,
        RetryOutcome.found a⟩ := by
  simp [retryGo, hg, hatt]

/-- An attempt that resolves without a session sleeps the linear backoff
delay and the loop continues at the next attempt. -/
theorem retryGo_noSession (att : Nat → AttemptResult) (dur : Nat → Nat)
    (maxTimeMs initialDelayMs startTime fuel now a : Nat)
    (le : Option String) (hg : now - startTime < maxTimeMs)
    (hatt : att a = AttemptResult.noSession) :
    retryGo att dur maxTimeMs initialDelayMs startTime (fuel + 1) now a le =
      ⟨(a, AttemptResult.noSession, min (initialDelayMs * a) 2000) ::
        (retryGo att dur maxTimeMs initialDelayMs startTime fuel
          (now + dur a + min (initialDelayMs * a) 2000) (a + 1) le).trace,
        (retryGo att dur maxTimeMs initialDelayMs startTime fuel
          (now + dur a + min (initialDelayMs * a) 2000) (a + 1) le).endTime,
        (retryGo att dur maxTimeMs initialDelayMs startTime fuel
          (now + dur a + min (initialDelayMs * a) 2000) (a + 1) le).outcome⟩ := by
  simp [retryGo, hg, hatt]

/-- An attempt that throws records its error, sleeps the flat
initialDelayMs delay, and the loop continues at the next attempt. -/
theorem retryGo_failure (att : Nat → AttemptResult) (dur : Nat → Nat)
    (maxTimeMs initialDelayMs startTime fuel now a : Nat)
    (le : Option String) (m : String) (hg : now - startTime < maxTimeMs)
    (hatt : att a = AttemptResult.failure m) :
    retryGo att dur maxTimeMs initialDelayMs startTime (fuel + 1) now a le =
      ⟨(a, AttemptResult.failure m, initialDelayMs) ::
        (retryGo att dur maxTimeMs initialDelayMs startTime fuel
          (now + dur a + initialDelayMs) (a + 1) (some m)).trace,
        (retryGo att dur maxTimeMs initialDelayMs startTime fuel
          (now + dur a + initialDelayMs) (a + 1) (some m)).endTime,
        (retryGo att dur maxTimeMs initialDelayMs startTime fuel
          (now + dur a + initialDelayMs) (a + 1) (some m)).outcome⟩ := by
  simp [retryGo, hg, hatt]

/-- lastFailureMsg ignores a no-session entry. -/
theorem lastFailureMsg_cons_noSession (a δ : Nat)
    (t : List (Nat × AttemptResult × Nat)) :
    lastFailureMsg ((a, AttemptResult.noSession, δ) :: t) =
      lastFailureMsg t := by
  simp only [lastFailureMsg]
  cases lastFailureMsg t <;> rfl

/-- lastFailureMsg on a failure entry: the later failure wins when there
is one, else the entry itself. -/
theorem lastFailureMsg_cons_failure (a δ : Nat) (m : String)
    (t : List (Nat × AttemptResult × Nat)) :
    lastFailureMsg ((a, AttemptResult.failure m, δ) :: t) =
      some ((lastFailureMsg t).getD m) := by
  simp only [lastFailureMsg]
  cases lastFailureMsg t <;> rfl

/-- Every no-session trace entry of the retry loop slept exactly the
linear backoff delay min (initialDelayMs * attempt) 2000. -/
theorem retryGo_noSession_delay_eq (att : Nat → AttemptResult)
    (dur : Nat → Nat) (maxTimeMs initialDelayMs startTime : Nat) :
    ∀ (fuel now a : Nat) (le : Option String) (k δ : Nat),
      (k, AttemptResult.noSession, δ) ∈
        (retryGo att dur maxTimeMs initialDelayMs startTime
          fuel now a le).trace →
      δ = min (initialDelayMs * k) 2000 := by
  intro fuel
  induction fuel with
  | zero =>
    intro now a le k δ h
    rw [retryGo_zero] at h
    simp at h
  | succ n ih =>
    intro now a le k δ h
    by_cases hg : now - startTime < maxTimeMs
    · cases hatt : att a with
      | success =>
        rw [retryGo_success att dur maxTimeMs initialDelayMs startTime
          n now a le hg hatt] at h
        simp at h
      | noSession =>
        rw [retryGo_noSession att dur maxTimeMs initialDelayMs startTime
          n now a le hg hatt] at h
        rcases List.mem_cons.mp h with h | h
        · simp only [Prod.mk.injEq] at h
          obtain ⟨hk, -, hδ⟩ := h
          subst hk
          exact hδ
        · exact ih _ _ _ k δ h
      | failure m =>
        rw [retryGo_failure att dur maxTimeMs initialDelayMs startTime
          n now a le m hg hatt] at h
        rcases List.mem_cons.mp h with h | h
        · simp at h
        · exact ih _ _ _ k δ h
    · rw [retryGo_guard_false att dur maxTimeMs initialDelayMs startTime
        n now a le hg] at h
      simp at h

/-- Every failure trace entry of the retry loop slept exactly the flat
initialDelayMs delay. -/
theorem retryGo_failure_delay_eq (att : Nat → AttemptResult)
    (dur : Nat → Nat) (maxTimeMs initialDelayMs startTime : Nat) :
    ∀ (fuel now a : Nat) (le : Option String) (k δ : Nat) (m : String),
      (k, AttemptResult.failure m, δ) ∈
        (retryGo att dur maxTimeMs initialDelayMs startTime
          fuel now a le).trace →
      δ = initialDelayMs := by
  intro fuel
  induction fuel with
  | zero =>
    intro now a le k δ m h
    rw [retryGo_zero] at h
    simp at h
  | succ n ih =>
    intro now a le k δ m h
    by_cases hg : now - startTime < maxTimeMs
    · cases hatt : att a with
      | success =>
        rw [retryGo_success att dur maxTimeMs initialDelayMs startTime
          n now a le hg hatt] at h
        simp at h
      | noSession =>
        rw [retryGo_noSession att dur maxTimeMs initialDelayMs startTime
          n now a le hg hatt] at h
        rcases List.mem_cons.mp h with h | h
        · simp at h
        · exact ih _ _ _ k δ m h
      | failure m' =>
        rw [retryGo_failure att dur maxTimeMs initialDelayMs startTime
          n now a le m' hg hatt] at h
        rcases List.mem_cons.mp h with h | h
        · simp only [Prod.mk.injEq] at h
          exact h.2.2
        · exact ih _ _ _ k δ m h
    · rw [retryGo_guard_false att dur maxTimeMs initialDelayMs startTime
        n now a le hg] at h
      simp at h

/-- When the retry loop throws, the thrown message is the message of the
last failure of the trace, falling back on the recorded error the loop
started with, then on the generic timeout message. -/
theorem retryGo_threw_msg (att : Nat → AttemptResult)
    (dur : Nat → Nat) (maxTimeMs initialDelayMs startTime : Nat) :
    ∀ (fuel now a : Nat) (le : Option String) (m : String),
      (retryGo att dur maxTimeMs initialDelayMs startTime
        fuel now a le).outcome = RetryOutcome.threw m →
      m = (lastFailureMsg (retryGo att dur maxTimeMs initialDelayMs
            startTime fuel now a le).trace).getD
          (le.getD (retryTimeoutMsg maxTimeMs)) := by
  intro fuel
  induction fuel with
  | zero =>
    intro now a le m h
    rw [retryGo_zero] at h ⊢
    injection h with h
    simpa [lastFailureMsg] using h.symm
  | succ n ih =>
    intro now a le m h
    by_cases hg : now - startTime < maxTimeMs
    · cases hatt : att a with
      | success =>
        rw [retryGo_success att dur maxTimeMs initialDelayMs startTime
          n now a le hg hatt] at h
        simp at h
      | noSession =>
        rw [retryGo_noSession att dur maxTimeMs initialDelayMs startTime
          n now a le hg hatt] at h ⊢
        rw [lastFailureMsg_cons_noSession]
        exact ih _ _ _ m h
      | failure m' =>
        rw [retryGo_failure att dur maxTimeMs initialDelayMs startTime
          n now a le m' hg hatt] at h ⊢
        rw [lastFailureMsg_cons_failure]
        have := ih _ _ _ m h
        simpa using this
    · rw [retryGo_guard_false att dur maxTimeMs initialDelayMs startTime
        n now a le hg] at h ⊢
      simpa [lastFailureMsg] using (RetryOutcome.threw.injEq .. ▸ h).symm

/-- Wall-clock bound for the retry loop: when every attempt settles
within its 5000 ms timeout, the loop ends strictly before
startTime + maxTimeMs + 5000 + max initialDelayMs 2000 (the last guard
check happens before the budget elapses, and at most one attempt plus
one inter-attempt delay follow it). -/
theorem retryGo_endTime_bound (att : Nat → AttemptResult)
    (dur : Nat → Nat) (maxTimeMs initialDelayMs startTime : Nat)
    (hdur : ∀ k, dur k ≤ 5000) :
    ∀ (fuel now a : Nat) (le : Option String),
      startTime ≤ now →
      now < startTime + maxTimeMs + 5000 + max initialDelayMs 2000 →
      (retryGo att dur maxTimeMs initialDelayMs startTime
        fuel now a le).endTime <
        startTime + maxTimeMs + 5000 + max initialDelayMs 2000 := by
  intro fuel
  induction fuel with
  | zero =>
    intro now a le hs hb
    rw [retryGo_zero]
    exact hb
  | succ n ih =>
    intro now a le hs hb
    by_cases hg : now - startTime < maxTimeMs
    · have hnow : now < startTime + maxTimeMs := by omega
      have hda : dur a ≤ 5000 := hdur a
      cases hatt : att a with
      | success =>
        rw [retryGo_success att dur maxTimeMs initialDelayMs startTime
          n now a le hg hatt]
        have hmax : (2000 : Nat) ≤ max initialDelayMs 2000 :=
          Nat.le_max_right initialDelayMs 2000
        show now + dur a <
          startTime + maxTimeMs + 5000 + max initialDelayMs 2000
        omega
      | noSession =>
        rw [retryGo_noSession att dur maxTimeMs initialDelayMs startTime
          n now a le hg hatt]
        have hδ : min (initialDelayMs * a) 2000 ≤ max initialDelayMs 2000 := by
          have h1 := Nat.min_le_right (initialDelayMs * a) 2000
          have h2 := Nat.le_max_right initialDelayMs 2000
          omega
        exact ih _ _ _ (by omega) (by omega)
      | failure m =>
        rw [retryGo_failure att dur maxTimeMs initialDelayMs startTime
          n now a le m hg hatt]
        have hδ : initialDelayMs ≤ max initialDelayMs 2000 :=
          Nat.le_max_left initialDelayMs 2000
        exact ih _ _ _ (by omega) (by omega)
    · rw [retryGo_guard_false att dur maxTimeMs initialDelayMs startTime
        n now a le hg]
      exact hb

/-- Sequencing of the retry loop: when the loop started at attempt a
returns a session found at attempt k, the attempts it performed are
exactly a, a+1, ..., k, in order — in particular attempt k+1 never
begins. -/
theorem retryGo_found_trace (att : Nat → AttemptResult)
    (dur : Nat → Nat) (maxTimeMs initialDelayMs startTime : Nat) :
    ∀ (fuel now a : Nat) (le : Option String) (k : Nat),
      (retryGo att dur maxTimeMs initialDelayMs startTime
        fuel now a le).outcome = RetryOutcome.found k →
      a ≤ k ∧
      (retryGo att dur maxTimeMs initialDelayMs startTime
        fuel now a le).trace.map Prod.fst = List.range' a (k + 1 - a) := by
  intro fuel
  induction fuel with
  | zero =>
    intro now a le k h
    rw [retryGo_zero] at h
    simp at h
  | succ n ih =>
    intro now a le k h
    by_cases hg : now - startTime < maxTimeMs
    · cases hatt : att a with
      | success =>
        rw [retryGo_success att dur maxTimeMs initialDelayMs startTime
          n now a le hg hatt] at h ⊢
        injection h with h
        subst h
        refine ⟨Nat.le_refl a, ?_⟩
        have hone : a + 1 - a = 1 := by omega
        rw [hone]
        rfl
      | noSession =>
        rw [retryGo_noSession att dur maxTimeMs initialDelayMs startTime
          n now a le hg hatt] at h ⊢
        obtain ⟨hak, htr⟩ := ih _ _ _ k h
        refine ⟨by omega, ?_⟩
        have hsplit : k + 1 - a = (k + 1 - (a + 1)) + 1 := by omega
        rw [List.map_cons, htr, hsplit, List.range'_succ]
      | failure m =>
        rw [retryGo_failure att dur maxTimeMs initialDelayMs startTime
          n now a le m hg hatt] at h ⊢
        obtain ⟨hak, htr⟩ := ih _ _ _ k h
        refine ⟨by omega, ?_⟩
        have hsplit : k + 1 - a = (k + 1 - (a + 1)) + 1 := by omega
        rw [List.map_cons, htr, hsplit, List.range'_succ]
    · rw [retryGo_guard_false att dur maxTimeMs initialDelayMs startTime
        n now a le hg] at h
      simp at h

/-- C3 counterexample: the delay between consecutive attempts is NOT
always min (initialDelayMs * attemptNumber) 2000. With
initialDelayMs = 3000 and a first attempt that throws, the loop sleeps
the flat error-path delay of 3000 ms, while the claimed formula gives
min (3000 * 1) 2000 = 2000 ms. -/
theorem getSessionWithRetry_delay_formula_counterexample :
    (getSessionWithRetry (fun _ => AttemptResult.failure "e")
      (fun _ => 0) 2000 3000 0 5).trace =
      [(1, AttemptResult.failure "e", 3000)] ∧
    min (3000 * 1) 2000 = 2000 ∧ (3000 : Nat) ≠ 2000 :=
  ⟨rfl, rfl, by decide⟩

/-- C3 (amended): the delay slept after an attempt that resolves
without a session is min (initialDelayMs * attemptNumber) 2000; the
delay slept after an attempt that throws is the flat initialDelayMs;
and when the time budget is exhausted without a session the function
throws the last observed error, or the generic timeout error if no
error was recorded during any attempt. -/
theorem getSessionWithRetry_delays_and_final_throw
    (att : Nat → AttemptResult) (dur : Nat → Nat)
    (maxTimeMs initialDelayMs startTime fuel : Nat) :
    (∀ k δ, (k, AttemptResult.noSession, δ) ∈
        (getSessionWithRetry att dur maxTimeMs initialDelayMs
          startTime fuel).trace →
      δ = min (initialDelayMs * k) 2000) ∧
    (∀ k m δ, (k, AttemptResult.failure m, δ) ∈
        (getSessionWithRetry att dur maxTimeMs initialDelayMs
          startTime fuel).trace →
      δ = initialDelayMs) ∧
    (∀ m, (getSessionWithRetry att dur maxTimeMs initialDelayMs
        startTime fuel).outcome = RetryOutcome.threw m →
      m = (lastFailureMsg (getSessionWithRetry att dur maxTimeMs
            initialDelayMs startTime fuel).trace).getD
          (retryTimeoutMsg maxTimeMs)) := by
  refine ⟨?_, ?_, ?_⟩
  · intro k δ h
    exact retryGo_noSession_delay_eq att dur maxTimeMs initialDelayMs
      startTime fuel startTime 1 none k δ h
  · intro k m δ h
    exact retryGo_failure_delay_eq att dur maxTimeMs initialDelayMs
      startTime fuel startTime 1 none k δ m h
  · intro m h
    exact retryGo_threw_msg att dur maxTimeMs initialDelayMs
      startTime fuel startTime 1 none m h

/-- Witness for the amended C3: a concrete run with initialDelayMs 600
whose two attempts find no session sleeps 600 then 1200 ms as the
linear formula prescribes, and then throws the generic timeout message
since no error was ever recorded. -/
theorem getSessionWithRetry_delays_and_final_throw_witness :
    (2, AttemptResult.noSession, 1200) ∈
      (getSessionWithRetry (fun _ => AttemptResult.noSession)
        (fun _ => 0) 1000 600 0 3).trace ∧
    (1200 : Nat) = min (600 * 2) 2000 ∧
    (getSessionWithRetry (fun _ => AttemptResult.noSession)
      (fun _ => 0) 1000 600 0 3).outcome =
      RetryOutcome.threw "Session check failed after 1000ms" ∧
    "Session check failed after 1000ms" =
      (lastFailureMsg (getSessionWithRetry (fun _ => AttemptResult.noSession)
        (fun _ => 0) 1000 600 0 3).trace).getD (retryTimeoutMsg 1000) := by
  have h := getSessionWithRetry_delays_and_final_throw
    (fun _ => AttemptResult.noSession) (fun _ => 0) 1000 600 0 3
  have hmem : (2, AttemptResult.noSession, 1200) ∈
      (getSessionWithRetry (fun _ => AttemptResult.noSession)
        (fun _ => 0) 1000 600 0 3).trace := by
    decide
  have hout : (getSessionWithRetry (fun _ => AttemptResult.noSession)
      (fun _ => 0) 1000 600 0 3).outcome =
      RetryOutcome.threw "Session check failed after 1000ms" := rfl
  exact ⟨hmem, h.1 2 1200 hmem, hout,
    h.2.2 "Session check failed after 1000ms" hout⟩

/-- C4 counterexample: the total wall-clock time can exceed
maxTimeMs plus one attempt timeout. With a 1 ms budget, a first attempt
that runs its full 5000 ms timeout and then throws is followed by the
500 ms error delay before the guard is re-checked, so the function
gives up only at 5500 ms, beyond 1 + 5000. -/
theorem getSessionWithRetry_wallclock_counterexample :
    (∀ k : Nat, (fun _ : Nat => 5000) k ≤ 5000) ∧
    (getSessionWithRetry (fun _ => AttemptResult.failure "boom")
      (fun _ : Nat => 5000) 1 500 0 10).endTime - 0 = 5500 ∧
    ¬ ((5500 : Nat) ≤ 1 + 5000) :=
  ⟨fun _ => Nat.le_refl 5000, rfl, by decide⟩

/-- C4 (amended): when every attempt settles within its 5000 ms
timeout, the total wall-clock time spent before giving up is strictly
below maxTimeMs plus one attempt timeout (5000 ms) plus one
inter-attempt delay (at most max initialDelayMs 2000); and attempts are
strictly sequential: if a session is obtained on attempt k the function
returns at once, having performed exactly attempts 1, ..., k — attempt
k + 1 never begins. -/
theorem getSessionWithRetry_time_bound_and_sequential
    (att : Nat → AttemptResult) (dur : Nat → Nat)
    (maxTimeMs initialDelayMs startTime fuel : Nat)
    (hdur : ∀ k, dur k ≤ 5000) :
    (getSessionWithRetry att dur maxTimeMs initialDelayMs
      startTime fuel).endTime <
      startTime + maxTimeMs + 5000 + max initialDelayMs 2000 ∧
    (∀ k, (getSessionWithRetry att dur maxTimeMs initialDelayMs
        startTime fuel).outcome = RetryOutcome.found k →
      (getSessionWithRetry att dur maxTimeMs initialDelayMs
        startTime fuel).trace.map Prod.fst = List.range' 1 k) := by
  constructor
  · apply retryGo_endTime_bound att dur maxTimeMs initialDelayMs
      startTime hdur fuel startTime 1 none (Nat.le_refl startTime)
    have := Nat.le_max_right initialDelayMs 2000
    omega
  · intro k h
    obtain ⟨hk, htr⟩ := retryGo_found_trace att dur maxTimeMs
      initialDelayMs startTime fuel startTime 1 none k h
    have hk1 : k + 1 - 1 = k := by omega
    rw [hk1] at htr
    simpa [getSessionWithRetry] using htr

/-- Witness for the amended C4: a concrete run finding a session on
attempt 2 ends within the bound and performed exactly attempts 1 and
2. -/
theorem getSessionWithRetry_time_bound_and_sequential_witness :
    (getSessionWithRetry
      (fun a => if a = 2 then AttemptResult.success
                else AttemptResult.noSession)
      (fun _ : Nat => 100) 10000 500 0 20).endTime <
      0 + 10000 + 5000 + max 500 2000 ∧
    (getSessionWithRetry
      (fun a => if a = 2 then AttemptResult.success
                else AttemptResult.noSession)
      (fun _ : Nat => 100) 10000 500 0 20).trace.map Prod.fst =
      List.range' 1 2 := by
  have hd : ∀ k : Nat, (fun _ : Nat => 100) k ≤ 5000 := by
    intro k
    norm_num
  have h := getSessionWithRetry_time_bound_and_sequential
    (fun a => if a = 2 then AttemptResult.success
              else AttemptResult.noSession)
    (fun _ : Nat => 100) 10000 500 0 20 hd
  exact ⟨h.1, h.2 2 rfl⟩

end CRT
